import Mathlib

/-!
Shallow embedding of `src/inference_auto.py` from the signal-engine
repository, with theorems settling the claims of its specification.

Modelling conventions:

* Machine floats are modelled as rationals.
* The external yfinance price source is an oracle
  `PriceOracle : String → Option (Int × Int) → Except Unit (List ℚ)` mapping a
  ticker symbol and a half-open day-number window to either a lookup error or
  the chronological list of daily closes found in that window.  Calendar dates
  are converted to day numbers with the standard civil-calendar algorithm, so
  `timedelta(days=k)` becomes integer addition.
* `pd.to_datetime(..., format="%Y-%m-%d", errors="coerce", utc=True)` becomes
  `parseYMD : String → Option Date`; an unparsable date is `none` (NaT).
* Side effects (price queries, file writes, Drive uploads, console prints,
  Telegram calls) are recorded as an event trace `List Ev`; a Python exception
  that escapes a function is modelled with `Except`.
* In `send_telegram`, for a non-empty row set the first loop iteration
  evaluates `r["event_timestamp"] - now` (source line 135).  The left operand
  is timezone-aware (the column was built with `utc=True`) while
  `now = datetime.utcnow()` is naive, and pandas raises `TypeError` when
  subtracting a naive datetime from an aware one.  The exception escapes
  before any caption text is assembled and before any Telegram request, which
  is modelled by the `telegramCaptionError` outcome with an empty event list.
-/

namespace SignalEngine

/-- Calendar date (year, month, day), the payload of a parsed event
timestamp; events always sit at midnight UTC. -/
structure Date where
  y : Nat
  m : Nat
  d : Nat
deriving DecidableEq, Repr

/-- Gregorian leap-year rule, used to validate the day of month exactly as
`datetime.strptime` does. -/
def isLeap (y : Nat) : Bool :=
  (y % 4 == 0 && y % 100 != 0) || (y % 400 == 0)

/-- Number of days in a month of a given year. -/
def daysInMonth (y m : Nat) : Nat :=
  if m == 2 then (if isLeap y then 29 else 28)
  else if m == 4 || m == 6 || m == 9 || m == 11 then 30
  else 31

/-- Numeric value of a decimal digit character. -/
def digitVal (c : Char) : Nat := c.toNat - 48

/-- Model of `pd.to_datetime(s, format="%Y-%m-%d", errors="coerce")` for one
cell: a zero-padded `YYYY-MM-DD` string parses to a date, anything else
coerces to `none` (NaT). -/
def parseYMD (s : String) : Option Date :=
  match s.toList with
  | [c1, c2, c3, c4, c5, c6, c7, c8, c9, c10] =>
    if c5 == '-' && c8 == '-' && [c1, c2, c3, c4, c6, c7, c9, c10].all Char.isDigit then
      let y := 1000 * digitVal c1 + 100 * digitVal c2 + 10 * digitVal c3 + digitVal c4
      let m := 10 * digitVal c6 + digitVal c7
      let d := 10 * digitVal c9 + digitVal c10
      if 1 ≤ m && m ≤ 12 && 1 ≤ d && d ≤ daysInMonth y m then some ⟨y, m, d⟩ else none
    else none
  | _ => none

/-- Days since 1970-01-01 of a civil date (standard days-from-civil
algorithm); gives meaning to `ts.date() ± timedelta(days=k)`. -/
def dateToDay (dt : Date) : Int :=
  let yi : Int := if dt.m ≤ 2 then (dt.y : Int) - 1 else (dt.y : Int)
  let era : Int := (if 0 ≤ yi then yi else yi - 399) / 400
  let yoe : Int := yi - era * 400
  let mp : Int := ((dt.m : Int) + 9) % 12
  let doy : Int := (153 * mp + 2) / 5 + (dt.d : Int) - 1
  let doe : Int := yoe * 365 + yoe / 4 - yoe / 100 + doy
  era * 146097 + doe - 719468

/-- Zero-padded two-digit rendering of a number, as in `strftime`. -/
def pad2 (n : Nat) : String :=
  if n < 10 then "0" ++ toString n else toString n

/-- Zero-padded four-digit rendering of a year, as in `strftime("%Y")`. -/
def pad4 (n : Nat) : String :=
  if n < 10 then "000" ++ toString n
  else if n < 100 then "00" ++ toString n
  else if n < 1000 then "0" ++ toString n
  else toString n

/-- Model of `strftime("%Y-%m-%d")`. -/
def dateStrYMD (dt : Date) : String :=
  pad4 dt.y ++ "-" ++ pad2 dt.m ++ "-" ++ pad2 dt.d

/-- Rendering of the `event_timestamp` column cell produced by
`DataFrame.to_csv`: a timezone-aware midnight timestamp prints as
`YYYY-MM-DD 00:00:00+00:00`, and NaT prints as the empty field. -/
def tsCsvCell : Option Date → String
  | none => ""
  | some dt => dateStrYMD dt ++ " 00:00:00+00:00"

/-- Smallest exponent `k ≤ 40` with `den ∣ 10 ^ k`, if one exists; every
price arising from a binary float has such a terminating expansion. -/
def findDecExp (den : Nat) : Option Nat :=
  (List.range 41).find? fun k => 10 ^ k % den == 0

/-- Left-pad a digit string with zeros to width `k`. -/
def natPad (s : String) (k : Nat) : String :=
  if s.length < k then String.mk (List.replicate (k - s.length) '0') ++ s else s

/-- Decimal rendering of a rational price, as Python prints the float
(`185.5` for 185.5, `185.0` for a whole number). -/
def decimalRepr (q : ℚ) : String :=
  match findDecExp q.den with
  | none => toString q.num ++ "/" ++ toString q.den
  | some k0 =>
    let k := max k0 1
    let scaled : Int := q.num * (10 ^ k : Int) / (q.den : Int)
    let sign := if q.num < 0 then "-" else ""
    sign ++ toString (scaled.natAbs / 10 ^ k) ++ "." ++
      natPad (toString (scaled.natAbs % 10 ^ k)) k

/-- Rendering of the `entry_price` column cell by `DataFrame.to_csv`: a
missing price (None/NaN) prints as the empty field. -/
def csvPriceCell : Option ℚ → String
  | none => ""
  | some q => decimalRepr q

/-- One raw input record: the two CSV columns after
`read_csv(csv_path, header=0, names=["DateRaw", "Ticker"])`. -/
structure RawRow where
  dateRaw : String
  symbol : String
deriving DecidableEq, Repr

/-- One table row after date parsing: the `symbol` and `event_timestamp`
columns; `none` is NaT. -/
structure ParsedRow where
  symbol : String
  event_timestamp : Option Date
deriving DecidableEq, Repr

/-- The date-parsing step of `process_scenario`: every raw row is retained,
its date string coerced through `parseYMD`. -/
def parseRows (rows : List RawRow) : List ParsedRow :=
  rows.map fun r => ⟨r.symbol, parseYMD r.dateRaw⟩

/-- External daily-close source: given a symbol and the half-open day window
passed to `yf.Ticker(symbol).history(start=..., end=...)`, returns either a
transport/lookup error or the chronological list of closes.  The window is
`none` when the row timestamp is NaT (the source then feeds NaT-derived
bounds to yfinance; whatever happens is covered by quantifying over the
oracle). -/
abbrev PriceOracle := String → Option (Int × Int) → Except Unit (List ℚ)

/-- Window computed in both feature helpers:
`[ts.date() - timedelta(days=2), ts.date() + timedelta(days=1))`. -/
def yfWindow (ts : Option Date) : Option (Int × Int) :=
  ts.map fun dt => (dateToDay dt - 2, dateToDay dt + 1)

/-- Model of `compute_pct_return` (source lines 48-58): query the 3-day
window of closes; with at least two observations return
`(hist.iloc[-1] - hist.iloc[-2]) / hist.iloc[-2]`, and on any error or
shorter history return `0.0`. -/
def compute_pct_return (hist : PriceOracle) (symbol : String) (ts : Option Date) : ℚ :=
  match hist symbol (yfWindow ts) with
  | .error _ => 0
  | .ok closes =>
    if 2 ≤ closes.length then
      (closes.getD (closes.length - 1) 0 - closes.getD (closes.length - 2) 0) /
        closes.getD (closes.length - 2) 0
    else 0

/-- Model of `fetch_price` (source lines 61-69): query the same window and
return `float(hist.iloc[-1])`; an empty history raises IndexError which the
bare except maps, like any lookup error, to `None`. -/
def fetch_price (hist : PriceOracle) (symbol : String) (ts : Option Date) : Option ℚ :=
  match hist symbol (yfWindow ts) with
  | .error _ => none
  | .ok closes => closes.getLast?

/-- Last two observations of a list, in order (previous, last); used by the
spec-side restatement of the percent-return contract. -/
def lastTwo : List ℚ → Option (ℚ × ℚ)
  | [] => none
  | [_] => none
  | [a, b] => some (a, b)
  | _ :: b :: c :: t => lastTwo (b :: c :: t)

/-- Most recent observation of a list; used by the spec-side restatement of
the entry-price contract. -/
def lastObs : List ℚ → Option ℚ
  | [] => none
  | [a] => some a
  | _ :: b :: t => lastObs (b :: t)

/-- Modelled from the spec words for `pctReturn`: query the 3-day window
`[date - 2 days, date + 1 day)`; with at least two observations return
`(last - prev) / prev`, otherwise (fewer observations or a lookup error)
return exactly `0.0`. -/
def pctReturnSpec (hist : PriceOracle) (symbol : String) (ts : Date) : ℚ :=
  match hist symbol (some (dateToDay ts - 2, dateToDay ts + 1)) with
  | .error _ => 0
  | .ok closes =>
    match lastTwo closes with
    | some (prev, last) => (last - prev) / prev
    | none => 0

/-- Modelled from the spec words for `entryPrice`: the most recent close in
the 3-day window when at least one observation exists, the absent marker when
none exists or the lookup errors. -/
def entryPriceSpec (hist : PriceOracle) (symbol : String) (ts : Date) : Option ℚ :=
  match hist symbol (some (dateToDay ts - 2, dateToDay ts + 1)) with
  | .error _ => none
  | .ok closes => lastObs closes

/-- Feature column `pct_return` over a parsed table: one entry per retained
row, NaT rows included (`df.apply` runs on every row). -/
def featureColumn (hist : PriceOracle) (rows : List ParsedRow) : List ℚ :=
  rows.map fun r => compute_pct_return hist r.symbol r.event_timestamp

/-- The feature matrix handed to `model.predict`, namely the single column
`df[["pct_return"]]` of the full retained table. -/
def classificationInput (hist : PriceOracle) (rows : List RawRow) : List ℚ :=
  featureColumn hist (parseRows rows)

/-- Outcome of `joblib.load(model_path)`: either the load raises, or it
yields an opaque batch classifier mapping the feature column to one label
per row. -/
inductive ModelOutcome where
  | loadError
  | ok (predict : List ℚ → List Int)

/-- Exceptions that can escape the per-scenario code into `main` (which has
no try/except around the loop body). -/
inductive ScenErr where
  | modelLoadError
  | predictShapeError
  | telegramCaptionError
deriving DecidableEq, Repr

/-- One accepted row after entry-price enrichment: the columns
`symbol`, `entry_price`, `event_timestamp` that are persisted. -/
structure BuyRow where
  symbol : String
  event_timestamp : Option Date
  entry_price : Option ℚ
deriving DecidableEq, Repr

/-- Observable side effects of one batch run. -/
inductive Ev where
  | featurePriceQuery (symbol : String) (window : Option (Int × Int))
  | entryPriceQuery (symbol : String) (window : Option (Int × Int))
  | fileWrite (path : String) (lines : List String)
  | driveUpload (objectName : String)
  | consolePrint (msg : String)
  | tgSendDocument (path : String)
  | tgSendMessage (text : String)
deriving DecidableEq, Repr

/-- Events of the yfinance queries issued while computing `pct_return` for
every retained row. -/
def featureEvents (rows : List ParsedRow) : List Ev :=
  rows.map fun r => .featurePriceQuery r.symbol (yfWindow r.event_timestamp)

/-- Events of the yfinance queries issued while fetching `entry_price` for
each accepted row. -/
def entryEvents (buys : List ParsedRow) : List Ev :=
  buys.map fun b => .entryPriceQuery b.symbol (yfWindow b.event_timestamp)

/-- Entry-price enrichment of one accepted row. -/
def enrich (hist : PriceOracle) (b : ParsedRow) : BuyRow :=
  ⟨b.symbol, b.event_timestamp, fetch_price hist b.symbol b.event_timestamp⟩

/-- The accepted set `buys = df[df["signal"] == 1]`: rows of the full parsed
table whose positionally aligned label is 1, in input order. -/
def acceptedRows (hist : PriceOracle) (predict : List ℚ → List Int)
    (rows : List RawRow) : List ParsedRow :=
  (((parseRows rows).zip (predict (classificationInput hist rows))).filter
    fun pr => pr.2 == 1).map Prod.fst

/-- Persisted CSV header written by
`buys[["symbol","entry_price","event_timestamp"]].to_csv(out_csv, index=False)`. -/
def artifactHeader : String := "symbol,entry_price,event_timestamp"

/-- One persisted CSV data line. -/
def artifactLine (r : BuyRow) : String :=
  r.symbol ++ "," ++ csvPriceCell r.entry_price ++ "," ++ tsCsvCell r.event_timestamp

/-- Full content of the persisted CSV, as lines. -/
def artifactLines (buys : List BuyRow) : List String :=
  artifactHeader :: buys.map artifactLine

/-- Configured output base directory. -/
def OUTPUT_BASE : String := "daily_signals"

/-- Output artifact path
`os.path.join(OUTPUT_BASE, name, f"{name}_signals_{date_str}.csv")` with
`date_str = datetime.utcnow().strftime("%Y-%m-%d")`. -/
def out_csv_path (name : String) (today : Date) : String :=
  OUTPUT_BASE ++ "/" ++ name ++ "/" ++ name ++ "_signals_" ++ dateStrYMD today ++ ".csv"

/-- Modelled from the spec words: output artifact path
`daily_signals/<scenario_name>/<scenario_name>_signals_<YYYY-MM-DD>.csv`. -/
def specArtifactPath (name : String) (today : Date) : String :=
  "daily_signals" ++ "/" ++ name ++ "/" ++ name ++ "_signals_" ++ dateStrYMD today ++ ".csv"

/-- Model of `os.path.basename`: the component after the final slash. -/
def basename (path : String) : String :=
  (path.splitOn "/").getLastD path

/-- Model of `process_scenario(name, csv_path, model_path, drive_svc)`
(source lines 86-122).  Inputs are the already-read raw rows, the model-load
outcome and the price oracle; `today` is the current UTC date.  Returns the
event trace plus either an escaped exception, `none` for the empty accepted
set, or the written path with the enriched rows. -/
def process_scenario (name : String) (rows : List RawRow) (model : ModelOutcome)
    (hist : PriceOracle) (today : Date) :
    List Ev × Except ScenErr (Option (String × List BuyRow)) :=
  match model with
  | .loadError => ([], .error .modelLoadError)
  | .ok predict =>
    if (predict (classificationInput hist rows)).length = (parseRows rows).length then
      if (acceptedRows hist predict rows).isEmpty then
        (featureEvents (parseRows rows), .ok none)
      else
        (featureEvents (parseRows rows) ++
          entryEvents (acceptedRows hist predict rows) ++
          [Ev.fileWrite (out_csv_path name today)
              (artifactLines ((acceptedRows hist predict rows).map (enrich hist))),
            Ev.driveUpload (basename (out_csv_path name today))],
          .ok (some (out_csv_path name today,
            (acceptedRows hist predict rows).map (enrich hist))))
    else (featureEvents (parseRows rows), .error .predictShapeError)

/-- Console text printed by `main` when a model file is missing. -/
def skipMsg (name : String) : String :=
  "⚠️  Skipping \x27" ++ name ++ "\x27: missing model."

/-- Console text printed by `main` for a scenario with no accepted rows. -/
def infoNoBuyMsg (name : String) : String :=
  "ℹ️  No BUY signals for \x27" ++ name ++ "\x27 today."

/-- Telegram text of the per-scenario empty branch of `send_telegram`. -/
def noBuyMsgFor (name : String) : String :=
  "✅ No BUY signals for " ++ name ++ " today."

/-- Telegram text of the end-of-batch aggregate fallback. -/
def aggregateNoBuyMsg : String :=
  "✅ No BUY signals in any scenario today."

/-- Model of `send_telegram(file_path, buys, scenario_name)` (source lines
126-157).  For a non-empty row set the caption loop raises TypeError on
`r["event_timestamp"] - now` (aware minus naive, line 135) before building
any text or posting anything; for an empty set it posts the plain
no-signals message. -/
def send_telegram (_path : String) (buys : List BuyRow) (name : String) :
    List Ev × Except ScenErr Unit :=
  if !buys.isEmpty then
    ([], .error .telegramCaptionError)
  else
    ([Ev.tgSendMessage (noBuyMsgFor name)], .ok ())

/-- One discovered scenario candidate: its name, raw event rows, whether the
paired model file exists, the model-load outcome, and its price oracle. -/
structure Scenario where
  name : String
  rows : List RawRow
  modelFileExists : Bool
  model : ModelOutcome
  hist : PriceOracle

/-- One iteration of the loop body of `main` (source lines 165-178): skip on
a missing model file, otherwise process the scenario and dispatch on the
result; the returned Bool is the contribution to `any_signals`. -/
def mainStep (today : Date) (s : Scenario) : List Ev × Except ScenErr Bool :=
  if !s.modelFileExists then
    ([Ev.consolePrint (skipMsg s.name)], .ok false)
  else
    match process_scenario s.name s.rows s.model s.hist today with
    | (ev, .error e) => (ev, .error e)
    | (ev, .ok none) => (ev ++ [Ev.consolePrint (infoNoBuyMsg s.name)], .ok false)
    | (ev, .ok (some pb)) =>
      match send_telegram pb.1 pb.2 s.name with
      | (tev, .ok _) => (ev ++ tev, .ok true)
      | (tev, .error e) => (ev ++ tev, .error e)

/-- The scenario loop of `main`: sequential, with no exception handler, so
the first escaped exception aborts the remaining scenarios; `acc` is the
running `any_signals` flag. -/
def runScenarios (today : Date) : List Scenario → Bool → List Ev × Except ScenErr Bool
  | [], acc => ([], .ok acc)
  | s :: rest, acc =>
    match mainStep today s with
    | (ev, .error e) => (ev, .error e)
    | (ev, .ok sig) =>
      ((ev ++ (runScenarios today rest (acc || sig)).1),
        (runScenarios today rest (acc || sig)).2)

/-- Model of `main()` (source lines 161-185): run every scenario, then post
the aggregate fallback message exactly when `any_signals` is still false. -/
def main (today : Date) (scens : List Scenario) : List Ev × Except ScenErr Unit :=
  match runScenarios today scens false with
  | (tr, .error e) => (tr, .error e)
  | (tr, .ok anySignals) =>
    (tr ++ (if anySignals then [] else [Ev.tgSendMessage aggregateNoBuyMsg]), .ok ())

/-- A scenario reaches the Produced outcome exactly when its model file
exists and `process_scenario` returns a written artifact (hence a non-empty
accepted set). -/
def scenarioProduced (today : Date) (s : Scenario) : Bool :=
  s.modelFileExists &&
    (match (process_scenario s.name s.rows s.model s.hist today).2 with
      | .ok (some _) => true
      | _ => false)

/-- Events the empty-accepted-set claims forbid: entry-price lookups,
artifact writes, storage uploads, and Telegram calls. -/
def isSideEffect : Ev → Bool
  | .entryPriceQuery _ _ => true
  | .fileWrite _ _ => true
  | .driveUpload _ => true
  | .tgSendDocument _ => true
  | .tgSendMessage _ => true
  | _ => false

/-! Concrete fixtures used by witnesses and counterexamples. -/

/-- Oracle for which every price lookup fails. -/
def histErr : PriceOracle := fun _ _ => .error ()

/-- The rational 185.5, written in normal form so that witnesses evaluate
without invoking field operations. -/
def q1855 : ℚ := ⟨371, 2, by decide, by decide⟩

/-- Oracle returning two closes, 100 and 185.5, for every query. -/
def histTwo : PriceOracle := fun _ _ => .ok [100, q1855]

/-- Classifier labelling every row 0. -/
def predictZero : List ℚ → List Int := fun xs => xs.map fun _ => 0

/-- Classifier labelling every row 1. -/
def predictOne : List ℚ → List Int := fun xs => xs.map fun _ => 1

/-- A well-formed raw event row. -/
def row2024 : RawRow := ⟨"2024-01-03", "AAPL"⟩

/-- A raw event row with an unparsable date. -/
def rowBadDate : RawRow := ⟨"not-a-date", "XYZ"⟩

/-- Concrete run date, 2025-06-01. -/
def d0 : Date := ⟨2025, 6, 1⟩

/-- Scenario whose classifier rejects its single row. -/
def sAlphaEmpty : Scenario := ⟨"alpha", [row2024], true, .ok predictZero, histErr⟩

/-- Scenario that produces one accepted row with an available price. -/
def sAlphaProduced : Scenario := ⟨"alpha", [row2024], true, .ok predictOne, histTwo⟩

/-- Scenario that produces one accepted row whose price lookup fails. -/
def sNoPrice : Scenario := ⟨"alpha", [row2024], true, .ok predictOne, histErr⟩

/-- Scenario whose model file exists but fails to load. -/
def sBadModel : Scenario := ⟨"bad", [row2024], true, .loadError, histErr⟩

/-- Scenario with no accepted rows, processed after others. -/
def sGoodEmpty : Scenario := ⟨"good", [row2024], true, .ok predictZero, histErr⟩

/-- Scenario whose model file is missing. -/
def sNoModelFile : Scenario := ⟨"skipped", [row2024], false, .loadError, histErr⟩

/-- Enriched accepted-row fixture with an available price. -/
def buyAAPL : BuyRow := ⟨"AAPL", some ⟨2024, 1, 3⟩, some q1855⟩

/-- Enriched accepted-row fixture whose price lookup failed. -/
def buyAAPLNoPrice : BuyRow := ⟨"AAPL", some ⟨2024, 1, 3⟩, none⟩

/-- Enriched accepted-row fixture with an unparsable date and no price. -/
def buyXYZ : BuyRow := ⟨"XYZ", none, none⟩

/-- Predicate separating Telegram calls from the other events. -/
def notTelegram : Ev → Bool
  | .tgSendMessage _ => false
  | .tgSendDocument _ => false
  | _ => true

/-! Helper lemmas. -/

theorem lastTwo_of_length_lt (l : List ℚ) (h : l.length < 2) : lastTwo l = none := by
  match l with
  | [] => rfl
  | [a] => rfl
  | a :: b :: t => simp only [List.length_cons] at h; omega

theorem lastTwo_eq_getD : (l : List ℚ) → 2 ≤ l.length →
    lastTwo l = some (l.getD (l.length - 2) 0, l.getD (l.length - 1) 0)
  | [], h => by simp at h
  | [a], h => by simp at h
  | [a, b], _ => rfl
  | a :: b :: c :: t, _ => by
    have ih := lastTwo_eq_getD (b :: c :: t) (by simp)
    have e2 : (a :: b :: c :: t).length - 2 = t.length + 1 := by
      simp only [List.length_cons]; omega
    have e1 : (a :: b :: c :: t).length - 1 = t.length + 2 := by
      simp only [List.length_cons]; omega
    have f2 : (b :: c :: t).length - 2 = t.length := by
      simp only [List.length_cons]; omega
    have f1 : (b :: c :: t).length - 1 = t.length + 1 := by
      simp only [List.length_cons]; omega
    rw [f2, f1] at ih
    show lastTwo (b :: c :: t) = _
    rw [ih, e2, e1]
    rfl

theorem lastObs_eq_getLast? : (l : List ℚ) → lastObs l = l.getLast?
  | [] => rfl
  | [a] => rfl
  | a :: b :: t => by
    have ih := lastObs_eq_getLast? (b :: t)
    show lastObs (b :: t) = _
    rw [ih, List.getLast?_cons_cons]

theorem process_scenario_empty {name : String} {rows : List RawRow} {f : List ℚ → List Int}
    {hist : PriceOracle} {today : Date}
    (hlen : (f (classificationInput hist rows)).length = (parseRows rows).length)
    (hempty : acceptedRows hist f rows = []) :
    process_scenario name rows (.ok f) hist today =
      (featureEvents (parseRows rows), .ok none) := by
  simp [process_scenario, hlen, hempty]

theorem process_scenario_produced {name : String} {rows : List RawRow} {model : ModelOutcome}
    {hist : PriceOracle} {today : Date} {p : String} {bs : List BuyRow}
    (h : (process_scenario name rows model hist today).2 = .ok (some (p, bs))) :
    ∃ f, model = .ok f ∧
      acceptedRows hist f rows ≠ [] ∧
      p = out_csv_path name today ∧
      bs = (acceptedRows hist f rows).map (enrich hist) ∧
      process_scenario name rows model hist today =
        (featureEvents (parseRows rows) ++ entryEvents (acceptedRows hist f rows) ++
          [Ev.fileWrite (out_csv_path name today) (artifactLines bs),
            Ev.driveUpload (basename (out_csv_path name today))],
          .ok (some (p, bs))) := by
  cases model with
  | loadError => simp [process_scenario] at h
  | ok f =>
    by_cases hlen : (f (classificationInput hist rows)).length = (parseRows rows).length
    · by_cases hemp : (acceptedRows hist f rows).isEmpty
      · simp [process_scenario, hlen, hemp] at h
      · have hne : acceptedRows hist f rows ≠ [] := by
          intro hnil
          rw [hnil] at hemp
          exact hemp rfl
        have hbody : process_scenario name rows (.ok f) hist today =
            (featureEvents (parseRows rows) ++ entryEvents (acceptedRows hist f rows) ++
              [Ev.fileWrite (out_csv_path name today)
                  (artifactLines ((acceptedRows hist f rows).map (enrich hist))),
                Ev.driveUpload (basename (out_csv_path name today))],
              .ok (some (out_csv_path name today,
                (acceptedRows hist f rows).map (enrich hist)))) := by
          simp [process_scenario, hlen, hemp]
        rw [hbody] at h
        simp only [Except.ok.injEq, Option.some.injEq, Prod.mk.injEq] at h
        obtain ⟨hp, hbs⟩ := h
        subst hp
        subst hbs
        exact ⟨f, rfl, hne, rfl, rfl, hbody⟩
    · simp [process_scenario, hlen] at h

theorem send_telegram_nonempty (p nm : String) {bs : List BuyRow} (h : bs ≠ []) :
    send_telegram p bs nm = ([], .error .telegramCaptionError) := by
  have he : bs.isEmpty = false := by
    cases bs with
    | nil => exact absurd rfl h
    | cons a t => rfl
  simp [send_telegram, he]

theorem featureEvents_notTelegram {rows : List ParsedRow} {e : Ev}
    (he : e ∈ featureEvents rows) : notTelegram e = true := by
  simp only [featureEvents, List.mem_map] at he
  obtain ⟨r, -, hr⟩ := he
  rw [← hr]
  rfl

theorem entryEvents_notTelegram {rows : List ParsedRow} {e : Ev}
    (he : e ∈ entryEvents rows) : notTelegram e = true := by
  simp only [entryEvents, List.mem_map] at he
  obtain ⟨r, -, hr⟩ := he
  rw [← hr]
  rfl

theorem process_trace_notTelegram {name : String} {rows : List RawRow} {model : ModelOutcome}
    {hist : PriceOracle} {today : Date} {e : Ev}
    (he : e ∈ (process_scenario name rows model hist today).1) : notTelegram e = true := by
  cases model with
  | loadError => simp [process_scenario] at he
  | ok f =>
    by_cases hlen : (f (classificationInput hist rows)).length = (parseRows rows).length
    · by_cases hemp : (acceptedRows hist f rows).isEmpty
      · rw [process_scenario_empty hlen (by simpa [List.isEmpty_iff] using hemp)] at he
        exact featureEvents_notTelegram he
      · have hne : acceptedRows hist f rows ≠ [] := by
          intro hnil
          rw [hnil] at hemp
          exact hemp rfl
        have hbody : (process_scenario name rows (.ok f) hist today).1 =
            featureEvents (parseRows rows) ++ entryEvents (acceptedRows hist f rows) ++
              [Ev.fileWrite (out_csv_path name today)
                  (artifactLines ((acceptedRows hist f rows).map (enrich hist))),
                Ev.driveUpload (basename (out_csv_path name today))] := by
          simp [process_scenario, hlen, hemp]
        rw [hbody] at he
        rcases List.mem_append.mp he with h1 | h2
        · rcases List.mem_append.mp h1 with h3 | h4
          · exact featureEvents_notTelegram h3
          · exact entryEvents_notTelegram h4
        · simp only [List.mem_cons, List.not_mem_nil, or_false] at h2
          rcases h2 with rfl | rfl <;> rfl
    · have hbody : (process_scenario name rows (.ok f) hist today).1 =
          featureEvents (parseRows rows) := by
        simp [process_scenario, hlen]
      rw [hbody] at he
      exact featureEvents_notTelegram he

theorem mainStep_trace_notTelegram {today : Date} {s : Scenario} {e : Ev}
    (he : e ∈ (mainStep today s).1) : notTelegram e = true := by
  by_cases hex : s.modelFileExists
  · rcases hproc : process_scenario s.name s.rows s.model s.hist today with ⟨pev, pr⟩
    have hpev : ∀ x ∈ pev, notTelegram x = true := by
      intro x hx
      have hin : x ∈ (process_scenario s.name s.rows s.model s.hist today).1 := by
        rw [hproc]
        exact hx
      exact process_trace_notTelegram hin
    cases pr with
    | error er =>
      have hms : (mainStep today s).1 = pev := by simp [mainStep, hex, hproc]
      rw [hms] at he
      exact hpev e he
    | ok v =>
      cases v with
      | none =>
        have hms : (mainStep today s).1 =
            pev ++ [Ev.consolePrint (infoNoBuyMsg s.name)] := by
          simp [mainStep, hex, hproc]
        rw [hms] at he
        rcases List.mem_append.mp he with h1 | h2
        · exact hpev e h1
        · rw [List.mem_singleton] at h2
          rw [h2]
          rfl
      | some pb =>
        have hps : (process_scenario s.name s.rows s.model s.hist today).2 =
            .ok (some (pb.1, pb.2)) := by rw [hproc]
        obtain ⟨f, -, hacc, -, hbs, -⟩ := process_scenario_produced hps
        have hbsne : pb.2 ≠ [] := by
          rw [hbs]
          intro hnil
          exact hacc (List.map_eq_nil_iff.mp hnil)
        have hsend := send_telegram_nonempty pb.1 s.name hbsne
        have hms : (mainStep today s).1 = pev ++ [] := by
          simp [mainStep, hex, hproc, hsend]
        rw [hms] at he
        rcases List.mem_append.mp he with h1 | h2
        · exact hpev e h1
        · cases h2
  · have hms : (mainStep today s).1 = [Ev.consolePrint (skipMsg s.name)] := by
      simp [mainStep, hex]
    rw [hms] at he
    rw [List.mem_singleton] at he
    rw [he]
    rfl

theorem runScenarios_trace_notTelegram {today : Date} :
    ∀ {scens : List Scenario} {acc : Bool} {e : Ev},
      e ∈ (runScenarios today scens acc).1 → notTelegram e = true
  | [], acc, e => by
    intro he
    simp [runScenarios] at he
  | s :: rest, acc, e => by
    intro he
    rcases hms : mainStep today s with ⟨ev, r⟩
    have hev : ∀ x ∈ ev, notTelegram x = true := by
      intro x hx
      have hin : x ∈ (mainStep today s).1 := by
        rw [hms]
        exact hx
      exact mainStep_trace_notTelegram hin
    cases r with
    | error er =>
      have h1 : (runScenarios today (s :: rest) acc).1 = ev := by
        simp [runScenarios, hms]
      rw [h1] at he
      exact hev e he
    | ok sig =>
      have h1 : (runScenarios today (s :: rest) acc).1 =
          ev ++ (runScenarios today rest (acc || sig)).1 := by
        simp [runScenarios, hms]
      rw [h1] at he
      rcases List.mem_append.mp he with h2 | h3
      · exact hev e h2
      · exact runScenarios_trace_notTelegram h3

theorem mainStep_ok_inv {today : Date} {s : Scenario} {ev : List Ev} {sig : Bool}
    (h : mainStep today s = (ev, .ok sig)) :
    sig = false ∧ scenarioProduced today s = false := by
  by_cases hex : s.modelFileExists
  · rcases hproc : process_scenario s.name s.rows s.model s.hist today with ⟨pev, pr⟩
    cases pr with
    | error er => simp [mainStep, hex, hproc] at h
    | ok v =>
      cases v with
      | none =>
        refine ⟨?_, ?_⟩
        · simp [mainStep, hex, hproc] at h
          exact h.2
        · simp [scenarioProduced, hex, hproc]
      | some pb =>
        have hps : (process_scenario s.name s.rows s.model s.hist today).2 =
            .ok (some (pb.1, pb.2)) := by rw [hproc]
        obtain ⟨f, -, hacc, -, hbs, -⟩ := process_scenario_produced hps
        have hbsne : pb.2 ≠ [] := by
          rw [hbs]
          intro hnil
          exact hacc (List.map_eq_nil_iff.mp hnil)
        have hsend := send_telegram_nonempty pb.1 s.name hbsne
        simp [mainStep, hex, hproc, hsend] at h
  · constructor
    · simp [mainStep, hex] at h
      exact h.2
    · simp [scenarioProduced, hex]

theorem runScenarios_ok_inv {today : Date} :
    ∀ {scens : List Scenario} {acc : Bool} {tr : List Ev} {flag : Bool},
      runScenarios today scens acc = (tr, .ok flag) →
      flag = acc ∧ ∀ s ∈ scens, scenarioProduced today s = false
  | [], acc, tr, flag => by
    intro h
    simp [runScenarios] at h
    exact ⟨h.2.symm, by simp⟩
  | s :: rest, acc, tr, flag => by
    intro h
    rcases hms : mainStep today s with ⟨ev, r⟩
    cases r with
    | error er => simp [runScenarios, hms] at h
    | ok sig =>
      rcases hrest : runScenarios today rest (acc || sig) with ⟨tr2, r2⟩
      cases r2 with
      | error e2 => simp [runScenarios, hms, hrest] at h
      | ok flag2 =>
        have hstep := mainStep_ok_inv hms
        have hflag : flag2 = flag := by
          simp [runScenarios, hms, hrest] at h
          exact h.2
        have hrec := runScenarios_ok_inv hrest
        refine ⟨?_, ?_⟩
        · rw [← hflag, hrec.1, hstep.1, Bool.or_false]
        · intro x hx
          rcases List.mem_cons.mp hx with h1 | h2
          · rw [h1]; exact hstep.2
          · exact hrec.2 x h2

theorem main_eq_of_ok {today : Date} {scens : List Scenario} {tr : List Ev} {flag : Bool}
    (h : runScenarios today scens false = (tr, .ok flag)) :
    main today scens =
      (tr ++ (if flag then [] else [Ev.tgSendMessage aggregateNoBuyMsg]), .ok ()) := by
  simp [main, h]

theorem noBuy_ne_aggregate (nm : String) : noBuyMsgFor nm ≠ aggregateNoBuyMsg := by
  intro h
  have hd : (noBuyMsgFor nm).data = aggregateNoBuyMsg.data := congrArg String.data h
  unfold noBuyMsgFor aggregateNoBuyMsg at hd
  rw [String.data_append, String.data_append] at hd
  have h17 := congrArg (fun l => l[17]?) hd
  dsimp only at h17
  have hlen : ("✅ No BUY signals for ".data).length = 21 := by decide
  rw [List.getElem?_append_left (by rw [List.length_append, hlen]; omega)] at h17
  rw [List.getElem?_append_left (by rw [hlen]; omega)] at h17
  revert h17
  decide

/-! Claim theorems. -/

/-- C1 (counterexample): in a batch holding one scenario whose accepted set
is empty, the number of per-scenario no-signal notifications sent to the
Telegram channel is 0, not the exactly-one the claim requires; the only
per-scenario no-signal output is one console print, and a feature-stage
price lookup did occur for the scenario. -/
theorem C1_counterexample :
    (main d0 [sAlphaEmpty]).1.count (Ev.tgSendMessage (noBuyMsgFor "alpha")) = 0 ∧
    (main d0 [sAlphaEmpty]).1.count (Ev.consolePrint (infoNoBuyMsg "alpha")) = 1 ∧
    (main d0 [sAlphaEmpty]).1.countP
      (fun e => match e with
        | Ev.featurePriceQuery _ _ => true
        | _ => false) = 1 := by
  decide

/-- C1 (amended): for every scenario with an empty accepted (label 1) set
whose model loads and classifies cleanly, `process_scenario` returns the
NoSignal outcome immediately, the orchestrator step prints exactly one
console no-signal message (no Telegram notification of its own), and no
entry-price lookup, no artifact file write, no storage upload and no
Telegram call occur for that scenario; only the feature-stage price queries
precede the empty check. -/
theorem C1_empty_scenario (today : Date) (s : Scenario) (f : List ℚ → List Int)
    (hex : s.modelFileExists = true)
    (hm : s.model = .ok f)
    (hlen : (f (classificationInput s.hist s.rows)).length = (parseRows s.rows).length)
    (hempty : acceptedRows s.hist f s.rows = []) :
    (process_scenario s.name s.rows s.model s.hist today).2 = .ok none ∧
    mainStep today s =
      (featureEvents (parseRows s.rows) ++ [Ev.consolePrint (infoNoBuyMsg s.name)],
        .ok false) ∧
    (mainStep today s).1.count (Ev.consolePrint (infoNoBuyMsg s.name)) = 1 ∧
    (mainStep today s).1.countP (fun e => isSideEffect e) = 0 := by
  have hp : process_scenario s.name s.rows s.model s.hist today =
      (featureEvents (parseRows s.rows), .ok none) := by
    rw [hm]
    exact process_scenario_empty hlen hempty
  have hms : mainStep today s =
      (featureEvents (parseRows s.rows) ++ [Ev.consolePrint (infoNoBuyMsg s.name)],
        .ok false) := by
    simp [mainStep, hex, hp]
  refine ⟨by rw [hp], hms, ?_, ?_⟩
  · rw [show (mainStep today s).1 =
        featureEvents (parseRows s.rows) ++ [Ev.consolePrint (infoNoBuyMsg s.name)] from by
      rw [hms]]
    rw [List.count_append]
    have h0 : (featureEvents (parseRows s.rows)).count
        (Ev.consolePrint (infoNoBuyMsg s.name)) = 0 := by
      rw [List.count_eq_zero]
      intro hmem
      simp only [featureEvents, List.mem_map] at hmem
      obtain ⟨r, -, hr⟩ := hmem
      exact Ev.noConfusion hr
    rw [h0, List.count_cons_self, List.count_nil]
  · rw [show (mainStep today s).1 =
        featureEvents (parseRows s.rows) ++ [Ev.consolePrint (infoNoBuyMsg s.name)] from by
      rw [hms]]
    rw [List.countP_eq_zero]
    intro e he
    rcases List.mem_append.mp he with h1 | h2
    · simp only [featureEvents, List.mem_map] at h1
      obtain ⟨r, -, hr⟩ := h1
      rw [← hr]
      simp [isSideEffect]
    · rw [List.mem_singleton] at h2
      rw [h2]
      simp [isSideEffect]

/-- Witness for C1 (amended) at the concrete empty scenario fixture. -/
theorem C1_empty_scenario_witness :
    (process_scenario sAlphaEmpty.name sAlphaEmpty.rows sAlphaEmpty.model
      sAlphaEmpty.hist d0).2 = .ok none ∧
    mainStep d0 sAlphaEmpty =
      (featureEvents (parseRows sAlphaEmpty.rows) ++
        [Ev.consolePrint (infoNoBuyMsg sAlphaEmpty.name)], .ok false) ∧
    (mainStep d0 sAlphaEmpty).1.count
      (Ev.consolePrint (infoNoBuyMsg sAlphaEmpty.name)) = 1 ∧
    (mainStep d0 sAlphaEmpty).1.countP (fun e => isSideEffect e) = 0 :=
  C1_empty_scenario d0 sAlphaEmpty predictZero rfl rfl (by decide) (by decide)

/-- C2: whenever the scenario loop completes without an escaped exception,
exactly one aggregate no-signals message is sent after all scenarios iff no
scenario reached the Produced outcome, and the `any_signals` flag is true
iff some scenario reached Produced with a non-empty accepted set. -/
theorem C2_aggregate_and_flag (today : Date) (scens : List Scenario) (tr : List Ev)
    (flag : Bool) (h : runScenarios today scens false = (tr, .ok flag)) :
    ((main today scens).1.count (Ev.tgSendMessage aggregateNoBuyMsg) = 1 ↔
      ∀ s ∈ scens, scenarioProduced today s = false) ∧
    (flag = true ↔ ∃ s ∈ scens, scenarioProduced today s = true) := by
  obtain ⟨hflag, hprod⟩ := runScenarios_ok_inv h
  subst hflag
  have hmain := main_eq_of_ok h
  constructor
  · apply iff_of_true
    · rw [show (main today scens).1 =
          tr ++ [Ev.tgSendMessage aggregateNoBuyMsg] from by rw [hmain]; rfl]
      rw [List.count_append]
      have h0 : tr.count (Ev.tgSendMessage aggregateNoBuyMsg) = 0 := by
        rw [List.count_eq_zero]
        intro hmem
        have hin : Ev.tgSendMessage aggregateNoBuyMsg ∈
            (runScenarios today scens false).1 := by
          rw [h]
          exact hmem
        have hnt := runScenarios_trace_notTelegram hin
        simp [notTelegram] at hnt
      rw [h0, List.count_cons_self, List.count_nil]
    · exact hprod
  · apply iff_of_false
    · simp
    · rintro ⟨s, hs, hps⟩
      rw [hprod s hs] at hps
      exact Bool.noConfusion hps

/-- Witness for C2 at a concrete completed batch with no produced
scenario. -/
theorem C2_aggregate_and_flag_witness :
    ((main d0 [sGoodEmpty]).1.count (Ev.tgSendMessage aggregateNoBuyMsg) = 1 ↔
      ∀ s ∈ [sGoodEmpty], scenarioProduced d0 s = false) ∧
    (false = true ↔ ∃ s ∈ [sGoodEmpty], scenarioProduced d0 s = true) :=
  C2_aggregate_and_flag d0 [sGoodEmpty] (runScenarios d0 [sGoodEmpty] false).1 false rfl

/-- C3 (counterexample): with one valid-date row and one unparsable-date
row, the feature matrix handed to the classifier has two entries while only
one retained row carries a valid timestamp, so rows with null timestamps are
NOT excluded from feature computation or the classification input. -/
theorem C3_counterexample :
    (classificationInput histErr [row2024, rowBadDate]).length = 2 ∧
    ((parseRows [row2024, rowBadDate]).filter
      (fun r => r.event_timestamp.isSome)).length = 1 := by
  decide

/-- C3 (amended): every raw row is retained (retained count equals raw
count) with its date coerced through the fixed-format parse, null on
failure; and every retained row, including null-timestamp rows, contributes
one feature value and one entry of the classification input, so the input
length equals the raw event count. -/
theorem C3_rows_retained_and_all_classified (hist : PriceOracle) (rows : List RawRow) :
    (parseRows rows).length = rows.length ∧
    (classificationInput hist rows).length = rows.length ∧
    (∀ i : Nat, ((parseRows rows)[i]?).map ParsedRow.event_timestamp =
      (rows[i]?).map fun r => parseYMD r.dateRaw) ∧
    ∀ i : Nat, (classificationInput hist rows)[i]? =
      (rows[i]?).map fun r => compute_pct_return hist r.symbol (parseYMD r.dateRaw) := by
  refine ⟨by simp [parseRows],
    by simp [classificationInput, featureColumn, parseRows], ?_, ?_⟩
  · intro i
    simp only [parseRows, List.getElem?_map, Option.map_map]
    rfl
  · intro i
    simp only [classificationInput, featureColumn, parseRows, List.getElem?_map,
      Option.map_map]
    rfl

/-- C4 (counterexample): a batch of two scenarios where the first model
exists but fails to load aborts immediately with the escaped exception: the
second scenario is never processed (its console message is absent, the whole
trace is empty) and the process does not finish normally. -/
theorem C4_counterexample :
    main d0 [sBadModel, sGoodEmpty] = ([], .error .modelLoadError) ∧
    Ev.consolePrint (infoNoBuyMsg "good") ∉ (main d0 [sBadModel, sGoodEmpty]).1 := by
  refine ⟨rfl, ?_⟩
  rw [show (main d0 [sBadModel, sGoodEmpty]).1 = [] from rfl]
  exact List.not_mem_nil _

/-- C4 (amended): only the missing-model-file case is isolated — the
scenario is skipped with a console message and the loop continues — while
any exception raised inside scenario processing (for example a model
artifact that fails to load) escapes the loop, aborts the batch before the
remaining scenarios, and ends the run abnormally. -/
theorem C4_isolation_only_for_missing_model (today : Date) (acc : Bool)
    (rest : List Scenario) (s sBad : Scenario)
    (h1 : s.modelFileExists = false)
    (h2 : sBad.modelFileExists = true) (h3 : sBad.model = .loadError) :
    runScenarios today (s :: rest) acc =
      (Ev.consolePrint (skipMsg s.name) :: (runScenarios today rest acc).1,
        (runScenarios today rest acc).2) ∧
    runScenarios today (sBad :: rest) acc = ([], .error .modelLoadError) := by
  constructor
  · have hms : mainStep today s = ([Ev.consolePrint (skipMsg s.name)], .ok false) := by
      simp [mainStep, h1]
    simp [runScenarios, hms]
  · have hproc : process_scenario sBad.name sBad.rows sBad.model sBad.hist today =
        ([], .error .modelLoadError) := by
      rw [h3]
      rfl
    have hms : mainStep today sBad = ([], .error .modelLoadError) := by
      simp [mainStep, h2, hproc]
    simp [runScenarios, hms]

/-- Witness for C4 (amended) at concrete scenarios. -/
theorem C4_isolation_witness :
    runScenarios d0 (sNoModelFile :: [sGoodEmpty]) false =
      (Ev.consolePrint (skipMsg sNoModelFile.name) ::
        (runScenarios d0 [sGoodEmpty] false).1,
        (runScenarios d0 [sGoodEmpty] false).2) ∧
    runScenarios d0 (sBadModel :: [sGoodEmpty]) false = ([], .error .modelLoadError) :=
  C4_isolation_only_for_missing_model d0 false [sGoodEmpty] sNoModelFile sBadModel
    rfl rfl rfl

/-- C7 (counterexample): the produced scenario of the spec example writes a
CSV whose header is `symbol,entry_price,event_timestamp` — not the claimed
`symbol,entry_price,entry_time` — and whose AAPL row reads
`AAPL,185.5,2024-01-03 00:00:00+00:00`, not `AAPL,185.50,03/01/24 00:00`. -/
theorem C7_counterexample :
    (process_scenario "alpha" [row2024] (.ok predictOne) histTwo d0).1.count
      (Ev.fileWrite "daily_signals/alpha/alpha_signals_2025-06-01.csv"
        ["symbol,entry_price,event_timestamp",
          "AAPL,185.5,2024-01-03 00:00:00+00:00"]) = 1 ∧
    artifactHeader ≠ "symbol,entry_price,entry_time" ∧
    artifactLine buyAAPL ≠ "AAPL,185.50,03/01/24 00:00" := by
  decide

/-- C7 (amended): every produced scenario writes exactly one artifact file,
at the scenario path, whose first line is the header
`symbol,entry_price,event_timestamp`, with one further line per accepted row
rendering symbol, the entry-price cell, and the pandas timestamp cell. -/
theorem C7_artifact_columns (name : String) (rows : List RawRow) (model : ModelOutcome)
    (hist : PriceOracle) (today : Date) (p : String) (bs : List BuyRow)
    (h : (process_scenario name rows model hist today).2 = .ok (some (p, bs))) :
    (process_scenario name rows model hist today).1.count
      (Ev.fileWrite (out_csv_path name today) (artifactLines bs)) = 1 ∧
    (artifactLines bs).head? = some "symbol,entry_price,event_timestamp" ∧
    (artifactLines bs).length = bs.length + 1 ∧
    ∀ b ∈ bs, artifactLine b =
      b.symbol ++ "," ++ csvPriceCell b.entry_price ++ "," ++
        tsCsvCell b.event_timestamp := by
  obtain ⟨f, hf, hacc, hp, hbs, htr⟩ := process_scenario_produced h
  refine ⟨?_, rfl, by simp [artifactLines], fun b _ => rfl⟩
  have h1 : (process_scenario name rows model hist today).1 =
      featureEvents (parseRows rows) ++ entryEvents (acceptedRows hist f rows) ++
        [Ev.fileWrite (out_csv_path name today) (artifactLines bs),
          Ev.driveUpload (basename (out_csv_path name today))] := by
    rw [htr]
  rw [h1, List.count_append, List.count_append]
  have hfev : (featureEvents (parseRows rows)).count
      (Ev.fileWrite (out_csv_path name today) (artifactLines bs)) = 0 := by
    rw [List.count_eq_zero]
    intro hmem
    simp only [featureEvents, List.mem_map] at hmem
    obtain ⟨r, -, hr⟩ := hmem
    exact Ev.noConfusion hr
  have heev : (entryEvents (acceptedRows hist f rows)).count
      (Ev.fileWrite (out_csv_path name today) (artifactLines bs)) = 0 := by
    rw [List.count_eq_zero]
    intro hmem
    simp only [entryEvents, List.mem_map] at hmem
    obtain ⟨r, -, hr⟩ := hmem
    exact Ev.noConfusion hr
  have hdu : ([Ev.driveUpload (basename (out_csv_path name today))] : List Ev).count
      (Ev.fileWrite (out_csv_path name today) (artifactLines bs)) = 0 := by
    rw [List.count_eq_zero]
    intro hmem
    rw [List.mem_singleton] at hmem
    exact Ev.noConfusion hmem
  rw [hfev, heev, List.count_cons_self, hdu]

/-- Witness for C7 (amended) at the concrete produced scenario. -/
theorem C7_artifact_columns_witness :
    (process_scenario "alpha" [row2024] (.ok predictOne) histTwo d0).1.count
      (Ev.fileWrite (out_csv_path "alpha" d0) (artifactLines [buyAAPL])) = 1 ∧
    (artifactLines [buyAAPL]).head? = some "symbol,entry_price,event_timestamp" ∧
    (artifactLines [buyAAPL]).length = [buyAAPL].length + 1 ∧
    ∀ b ∈ [buyAAPL], artifactLine b =
      b.symbol ++ "," ++ csvPriceCell b.entry_price ++ "," ++
        tsCsvCell b.event_timestamp :=
  C7_artifact_columns "alpha" [row2024] (.ok predictOne) histTwo d0
    "daily_signals/alpha/alpha_signals_2025-06-01.csv" [buyAAPL] rfl

/-- C8 (counterexample): a produced scenario whose only price lookup fails
persists the row `AAPL,,2024-01-03 00:00:00+00:00` — the absent entry price
renders as an empty field between the commas, not as an explicit
unavailable marker — and no notification message renders it at all: the
scenario step raises on the caption timestamp arithmetic and performs no
Telegram call. -/
theorem C8_counterexample :
    (process_scenario "alpha" [row2024] (.ok predictOne) histErr d0).2 =
      .ok (some ("daily_signals/alpha/alpha_signals_2025-06-01.csv",
        [buyAAPLNoPrice])) ∧
    artifactLines [buyAAPLNoPrice] =
      ["symbol,entry_price,event_timestamp", "AAPL,,2024-01-03 00:00:00+00:00"] ∧
    (mainStep d0 sNoPrice).2 = .error .telegramCaptionError ∧
    (mainStep d0 sNoPrice).1.countP (fun e => !notTelegram e) = 0 := by
  refine ⟨rfl, by decide, rfl, by decide⟩

/-- C8 (amended): an accepted row whose price lookup failed is always
retained in the persisted artifact — its entry-price cell renders as the
empty string, never as a zero rendering, and the row line is present in the
artifact —, while the rich notification never renders it because
`send_telegram` raises on the timestamp subtraction for every non-empty
accepted set before composing or sending any message. -/
theorem C8_absent_price (b : BuyRow) (bs : List BuyRow) (p nm : String)
    (hb : b.entry_price = none) (hmem : b ∈ bs) :
    csvPriceCell b.entry_price = "" ∧
    csvPriceCell b.entry_price ≠ "0" ∧
    csvPriceCell b.entry_price ≠ decimalRepr 0 ∧
    artifactLine b ∈ artifactLines bs ∧
    (artifactLines bs).length = bs.length + 1 ∧
    send_telegram p bs nm = ([], .error .telegramCaptionError) := by
  rw [hb]
  exact ⟨rfl, by decide, by decide,
    List.mem_cons_of_mem _ (List.mem_map_of_mem _ hmem),
    by simp [artifactLines],
    send_telegram_nonempty p nm (List.ne_nil_of_mem hmem)⟩

/-- Witness for C8 (amended) at the concrete absent-price row. -/
theorem C8_absent_price_witness :
    csvPriceCell buyAAPLNoPrice.entry_price = "" ∧
    csvPriceCell buyAAPLNoPrice.entry_price ≠ "0" ∧
    csvPriceCell buyAAPLNoPrice.entry_price ≠ decimalRepr 0 ∧
    artifactLine buyAAPLNoPrice ∈ artifactLines [buyAAPLNoPrice] ∧
    (artifactLines [buyAAPLNoPrice]).length = [buyAAPLNoPrice].length + 1 ∧
    send_telegram "daily_signals/alpha/alpha_signals_2025-06-01.csv"
      [buyAAPLNoPrice] "alpha" = ([], .error .telegramCaptionError) :=
  C8_absent_price buyAAPLNoPrice [buyAAPLNoPrice]
    "daily_signals/alpha/alpha_signals_2025-06-01.csv" "alpha" rfl
    (List.mem_singleton.mpr rfl)

/-- C9: every produced scenario writes its artifact at
`daily_signals/<name>/<name>_signals_<YYYY-MM-DD>.csv`, a deterministic
function of only the scenario name and the current UTC date, so two runs of
the same scenario name on the same UTC date — even with different rows,
models or price histories — produce the identical path. -/
theorem C9_artifact_path (name : String) (today : Date)
    (rows rows2 : List RawRow) (model model2 : ModelOutcome)
    (hist hist2 : PriceOracle) (p p2 : String) (bs bs2 : List BuyRow)
    (h : (process_scenario name rows model hist today).2 = .ok (some (p, bs)))
    (h2 : (process_scenario name rows2 model2 hist2 today).2 = .ok (some (p2, bs2))) :
    p = out_csv_path name today ∧ p2 = p ∧
    out_csv_path name today = specArtifactPath name today := by
  obtain ⟨f, -, -, hp, -, -⟩ := process_scenario_produced h
  obtain ⟨f2, -, -, hp2, -, -⟩ := process_scenario_produced h2
  exact ⟨hp, by rw [hp, hp2], rfl⟩

/-- Witness for C9 at two produced runs with different inputs on the same
date. -/
theorem C9_artifact_path_witness :
    "daily_signals/alpha/alpha_signals_2025-06-01.csv" = out_csv_path "alpha" d0 ∧
    "daily_signals/alpha/alpha_signals_2025-06-01.csv" =
      "daily_signals/alpha/alpha_signals_2025-06-01.csv" ∧
    out_csv_path "alpha" d0 = specArtifactPath "alpha" d0 :=
  C9_artifact_path "alpha" d0 [row2024] [row2024, rowBadDate] (.ok predictOne)
    (.ok predictOne) histTwo histErr
    "daily_signals/alpha/alpha_signals_2025-06-01.csv"
    "daily_signals/alpha/alpha_signals_2025-06-01.csv"
    [buyAAPL] [buyAAPLNoPrice, buyXYZ] rfl rfl

/-- C10: `send_telegram` is reached from `main` only with a non-empty
accepted set (the Produced payload is never empty), the empty-branch
per-scenario Telegram text is never sent in any batch trace, and no
scenario step of the loop performs a Telegram message call of its own. -/
theorem C10_empty_branch_never_runs (today : Date) (scens : List Scenario)
    (nm name : String) (rows : List RawRow) (model : ModelOutcome)
    (hist : PriceOracle) (p : String) (bs : List BuyRow)
    (h : (process_scenario name rows model hist today).2 = .ok (some (p, bs))) :
    bs ≠ [] ∧
    Ev.tgSendMessage (noBuyMsgFor nm) ∉ (main today scens).1 ∧
    ∀ s : Scenario, ∀ t : String, Ev.tgSendMessage t ∉ (mainStep today s).1 := by
  obtain ⟨f, -, hacc, -, hbs, -⟩ := process_scenario_produced h
  refine ⟨?_, ?_, ?_⟩
  · rw [hbs]
    intro hnil
    exact hacc (List.map_eq_nil_iff.mp hnil)
  · intro hmem
    rcases hrun : runScenarios today scens false with ⟨tr, r⟩
    cases r with
    | error er =>
      have hm : (main today scens).1 = tr := by simp [main, hrun]
      rw [hm] at hmem
      have hin : Ev.tgSendMessage (noBuyMsgFor nm) ∈
          (runScenarios today scens false).1 := by
        rw [hrun]
        exact hmem
      have hnt := runScenarios_trace_notTelegram hin
      simp [notTelegram] at hnt
    | ok flag =>
      have hm := main_eq_of_ok hrun
      rw [show (main today scens).1 =
          tr ++ (if flag then [] else [Ev.tgSendMessage aggregateNoBuyMsg]) from by
        rw [hm]] at hmem
      rcases List.mem_append.mp hmem with hin | hin
      · have hin2 : Ev.tgSendMessage (noBuyMsgFor nm) ∈
            (runScenarios today scens false).1 := by
          rw [hrun]
          exact hin
        have hnt := runScenarios_trace_notTelegram hin2
        simp [notTelegram] at hnt
      · cases flag with
        | true => simp at hin
        | false =>
          simp only [Bool.false_eq_true, if_false, List.mem_singleton] at hin
          have htxt : noBuyMsgFor nm = aggregateNoBuyMsg := by
            injection hin
          exact noBuy_ne_aggregate nm htxt
  · intro s t hmem
    have hnt := mainStep_trace_notTelegram hmem
    simp [notTelegram] at hnt

/-- Witness for C10 at a concrete produced scenario and a concrete batch. -/
theorem C10_empty_branch_never_runs_witness :
    ([buyAAPL] : List BuyRow) ≠ [] ∧
    Ev.tgSendMessage (noBuyMsgFor "beta") ∉ (main d0 [sAlphaEmpty]).1 ∧
    (∀ s : Scenario, ∀ t : String, Ev.tgSendMessage t ∉ (mainStep d0 s).1) :=
  C10_empty_branch_never_runs d0 [sAlphaEmpty] "beta" "alpha" [row2024]
    (.ok predictOne) histTwo "daily_signals/alpha/alpha_signals_2025-06-01.csv"
    [buyAAPL] rfl

end SignalEngine

namespace SignalEngine

/-- C5: for every oracle, symbol and (valid) timestamp, `compute_pct_return`
is the total function described by the spec: it queries the daily-close
window `[date - 2 days, date + 1 day)`, returns `(last - prev) / prev` when
at least two observations exist there, and returns exactly `0.0` when fewer
than two observations exist or the lookup errors; raising is impossible (the
bare `except` maps every failure to the `0.0` default, which the embedding
realises by totality over the oracle answer). -/
theorem C5_pct_return_meets_spec (hist : PriceOracle) (symbol : String) (ts : Date) :
    compute_pct_return hist symbol (some ts) = pctReturnSpec hist symbol ts := by
  unfold compute_pct_return pctReturnSpec
  have hw : yfWindow (some ts) = some (dateToDay ts - 2, dateToDay ts + 1) := rfl
  rw [hw]
  cases h : hist symbol (some (dateToDay ts - 2, dateToDay ts + 1)) with
  | error e => rfl
  | ok closes =>
    dsimp only
    by_cases hl : 2 ≤ closes.length
    · rw [if_pos hl, lastTwo_eq_getD closes hl]
    · rw [if_neg hl, lastTwo_of_length_lt closes (by omega)]

/-- C6: for every oracle, symbol and (valid) timestamp, `fetch_price`
returns the most recent close of the 3-day window when at least one
observation exists, and the absent marker (`None`) when the window is empty
or the lookup errors; no exception escapes (the bare `except` returns
`None`, realised by totality over the oracle answer). -/
theorem C6_entry_price_meets_spec (hist : PriceOracle) (symbol : String) (ts : Date) :
    fetch_price hist symbol (some ts) = entryPriceSpec hist symbol ts := by
  unfold fetch_price entryPriceSpec
  have hw : yfWindow (some ts) = some (dateToDay ts - 2, dateToDay ts + 1) := rfl
  rw [hw]
  cases h : hist symbol (some (dateToDay ts - 2, dateToDay ts + 1)) with
  | error e => rfl
  | ok closes => exact (lastObs_eq_getLast? closes).symm

end SignalEngine
